import Mathlib

/-!
# Verification of the conditional Cython build step in `setup.py`

This file gives a shallow embedding of the `build_cythonized` command class of
the NLTK `setup.py` (the conditional-compilation build step), together with the
small amount of surrounding module-level code that the step depends on
(`setup_reqs`, `MODULES_TO_COMPILE`, the environment-flag check).

Modelling choices, all read off the Python source:

* Mutable Python collections (the distribution's `cmdclass` dict and
  `ext_modules` list) are modelled as `Option (PyObj _)`: `none` is Python's
  `None`, and a present object carries both an identity (`oid`, standing for
  `id(x)`) and a shallow value.  `dict.copy()` / `list.copy()` produce a fresh
  `oid` with the same value; this lets reference equality (`is`) and value
  equality (`==`) be distinguished.  Fresh identities are drawn from a
  `nextOid` counter threaded through the state.
* `cmdclass` values are association lists `String × String` (command name to
  command-class name); extension descriptors are opaque `String`s.
* Exceptions are modelled by returning `BuildState × Option Err`: the state at
  the moment of the raise together with the propagated error; statements after
  a raise do not execute, exactly as in Python.
* The external collaborators are parameters: `cy` stands for
  `Cython.Build.cythonize` (taking the file list, the `language_level`
  argument and the `exclude` argument), `importErr` models a failure of
  `import Cython`, and `superF`/`superR` stand for the inherited
  `build.finalize_options` / `build.run`, which act only on the un-modelled
  remainder of the builder state (`rest`) — the distutils base command never
  reassigns `distribution.cmdclass` or `distribution.ext_modules`.
* `os.path.sep` is modelled as `"/"` (POSIX).
* The state carries a ghost event `trace` recording, in order, which of the
  source-level operations ran (snapshot, announce, mutation, delegation to the
  inherited phases, restoration).  The trace is instrumentation only: no
  definition branches on it.
-/

/-- A Python heap object: an identity (`oid`, the model of `id(x)`) together
with its shallow value. -/
structure PyObj (α : Type) where
  oid : Nat
  val : α
deriving DecidableEq

/-- The value of a `cmdclass` dict: command name mapped to command-class name. -/
abbrev Cmdclass := List (String × String)

/-- The value of an `ext_modules` list: opaque extension descriptors. -/
abbrev ExtList := List String

/-- A propagated Python exception, identified by its message. -/
structure Err where
  msg : String
deriving DecidableEq

/-- The two mutated fields of `self.distribution`. -/
structure PyDistribution where
  cmdclass : Option (PyObj Cmdclass)
  ext_modules : Option (PyObj ExtList)
deriving DecidableEq

/-- The contents of `self.stored_options` once `update` has run: the snapshot
of the two fields (each possibly `None`). -/
structure Stored where
  cmdclass : Option (PyObj Cmdclass)
  ext_modules : Option (PyObj ExtList)
deriving DecidableEq

/-- Ghost events recording which source-level operation ran. -/
inductive Ev where
  | snapshot
  | announce
  | mutate
  | superFinalize
  | superRun
  | restore
deriving DecidableEq

/-- The state of one `build_cythonized` instance together with the fields of
the distribution it mutates.  `rest` is the un-modelled remainder of the
builder state that the inherited phases act on; `nextOid` is the fresh-object
counter; `trace` is ghost instrumentation. -/
structure BuildState where
  dist : PyDistribution
  stored_options : Option Stored
  should_cythonize : Bool
  nextOid : Nat
  rest : Nat
  log : List String
  trace : List Ev
deriving DecidableEq

/-- The type of the external `cythonize` collaborator: file list,
`language_level` argument, `exclude` argument; returns descriptors or raises. -/
abbrev CyFun := List String → Nat → List String → Except Err ExtList

/-- The type of an inherited phase (`build.finalize_options` / `build.run`):
it acts on the un-modelled builder state and may raise. -/
abbrev Phase := Nat → Nat × Option Err

/-- A phase result: the state at exit together with a propagated exception,
`none` on normal return. -/
abbrev BuildResult := BuildState × Option Err

/-- `name.replace('.', os.path.sep)` with `os.path.sep = "/"`: since both the
pattern and the replacement are single characters, the replacement is exactly a
character-wise map. -/
def dotToSlash (s : String) : String :=
  ⟨s.data.map (fun c => if c == '.' then '/' else c)⟩

/-- Source line 106: `[name.replace('.', os.path.sep) + '.py' for name in mods]`,
with `os.path.sep = "/"`. -/
def filesOf (mods : List String) : List String :=
  mods.map (fun name => dotToSlash name ++ ".py")

/-- Source line 107: `"Compiling %d modules using Cython %s" % (len(files),
Cython.__version__)`. -/
def announceMsg (n : Nat) (ver : String) : String :=
  "Compiling " ++ toString n ++ " modules using Cython " ++ ver

/-- Source line 108: the `exclude` argument passed to `cythonize`. -/
def EXCLUDE_ARG : List String := ["**/__init__.py"]

/-- Source lines 99–100: `X.copy() if X else None`.  A missing (`None`) or
empty collection is falsy in Python, so `None` is stored; a non-empty one is
shallow-copied: same value, fresh identity `fresh`. -/
def snapVal {β : Type} (fresh : Nat) (o : Option (PyObj (List β))) :
    Option (PyObj (List β)) :=
  match o with
  | none => none
  | some p => if p.val.isEmpty then none else some ⟨fresh, p.val⟩

/-- Source lines 63–86: the module selector list (commented-out entries
omitted, as in the source). -/
def MODULES_TO_COMPILE : List String :=
  [ "nltk.chat.*", "nltk.chunk.*", "nltk.cluster.*", "nltk.draw.*",
    "nltk.grammar", "nltk.lm.*", "nltk.metrics.*", "nltk.misc.*",
    "nltk.parse.chart", "nltk.probability", "nltk.sem.*", "nltk.sentiment.*",
    "nltk.stem.*", "nltk.tbl.*", "nltk.tokenize.*", "nltk.translate.*",
    "nltk.twitter.*", "nltk.util" ]

/-- Source lines 52–55: `setup_reqs`, which gains a Cython requirement exactly
when `os.getenv('CYTHONIZE_NLTK') == 'true'`. -/
def setup_reqs (env : Option String) : List String :=
  if env == some "true" then ["Cython >= 0.28.5"] else []

namespace build_cythonized

/-- Source lines 89–92 (`__init__`): the step is constructed with an empty
`stored_options` dict and the flag resolved once by
`os.getenv('CYTHONIZE_NLTK') == 'true'`.  `env` is the environment variable's
value (`none` when unset). -/
def construct (env : Option String) (d : PyDistribution) (nextOid rest : Nat) : BuildState :=
  { dist := d
    stored_options := none
    should_cythonize := env == some "true"
    nextOid := nextOid
    rest := rest
    log := []
    trace := [] }

/-- Source lines 94–109 (`finalize_options`).  When the flag is set: store the
snapshot (lines 98–101), `import Cython` (line 104, may raise `importErr`),
build the file list and announce (lines 106–107), call `cythonize`
(line 108, may raise), assign the result to `distribution.ext_modules`, then
delegate to the inherited `finalize_options` (line 109).  When the flag is
unset only the delegation runs. -/
def finalize_options (mods : List String) (ver : String) (importErr : Option Err)
    (cy : CyFun) (superF : Phase) (st : BuildState) : BuildResult :=
  if st.should_cythonize then
    let stored : Stored :=
      { cmdclass := snapVal st.nextOid st.dist.cmdclass
        ext_modules := snapVal (st.nextOid + 1) st.dist.ext_modules }
    let st1 : BuildState :=
      { st with stored_options := some stored, nextOid := st.nextOid + 2,
                trace := st.trace ++ [Ev.snapshot] }
    match importErr with
    | some e => (st1, some e)
    | none =>
      let files := filesOf mods
      let st2 : BuildState :=
        { st1 with log := st1.log ++ [announceMsg files.length ver],
                   trace := st1.trace ++ [Ev.announce] }
      match cy files 3 EXCLUDE_ARG with
      | Except.error e => (st2, some e)
      | Except.ok exts =>
        let st3 : BuildState :=
          { st2 with
              dist := { st2.dist with ext_modules := some ⟨st2.nextOid, exts⟩ }
              nextOid := st2.nextOid + 1
              trace := st2.trace ++ [Ev.mutate] }
        let res := superF st3.rest
        ({ st3 with rest := res.1, trace := st3.trace ++ [Ev.superFinalize] },
         res.2)
  else
    let res := superF st.rest
    ({ st with rest := res.1, trace := st.trace ++ [Ev.superFinalize] }, res.2)

/-- Source lines 111–117 (`run`): delegate to the inherited `run` (line 112;
if it raises, nothing further executes), then, when the flag is set, write the
stored snapshot back into `distribution.cmdclass` and
`distribution.ext_modules` (lines 116–117).  Reading a key absent from
`stored_options` would be a `KeyError`, modelled likewise as a raise. -/
def run (superR : Phase) (st : BuildState) : BuildResult :=
  let res := superR st.rest
  let st1 : BuildState := { st with rest := res.1, trace := st.trace ++ [Ev.superRun] }
  match res.2 with
  | some e => (st1, some e)
  | none =>
    if st1.should_cythonize then
      match st1.stored_options with
      | none => (st1, some { msg := "KeyError" })
      | some s =>
        ({ st1 with
            dist := { cmdclass := s.cmdclass, ext_modules := s.ext_modules }
            trace := st1.trace ++ [Ev.restore] }, none)
    else (st1, none)

/-- One build invocation as driven by the framework: `finalize_options`, then
`run`, with an exception from the former aborting before the latter. -/
def invoke (mods : List String) (ver : String) (importErr : Option Err)
    (cy : CyFun) (superF superR : Phase) (st : BuildState) : BuildResult :=
  match finalize_options mods ver importErr cy superF st with
  | (st1, some e) => (st1, some e)
  | (st1, none) => run superR st1

end build_cythonized

/-! ## Basic lemmas about the snapshot operation -/

/-- Snapshotting preserves the shallow value whenever the collection is not a
present-but-empty one (the `X.copy() if X else None` idiom degrades an empty
collection to `None`, but maps `None` to `None` and a non-empty collection to
a value-equal copy). -/
theorem snapVal_map_val {β : Type} (fresh : Nat) (o : Option (PyObj (List β)))
    (h : o.map PyObj.val ≠ some []) :
    (snapVal fresh o).map PyObj.val = o.map PyObj.val := by
  cases o with
  | none => rfl
  | some p =>
    cases hv : p.val with
    | nil => exact absurd (by simp [hv]) h
    | cons a l => simp [snapVal, hv]

/-- A double snapshot has the same shallow value as a single one: the output of
`snapVal` is never a present-but-empty collection, so a second snapshot only
refreshes the identity. -/
theorem snapVal_snapVal_map_val {β : Type} (f g : Nat) (o : Option (PyObj (List β))) :
    (snapVal f (snapVal g o)).map PyObj.val = (snapVal g o).map PyObj.val := by
  cases o with
  | none => rfl
  | some p =>
    by_cases hv : p.val.isEmpty
    · simp [snapVal, hv]
    · simp [snapVal, hv]

namespace build_cythonized

/-- Shape of a complete, successful flag-on invocation: snapshot taken with
fresh identities `nextOid`/`nextOid + 1`, the compiled descriptors installed at
identity `nextOid + 2` and then overwritten by the restoration, one announce
line, and the full event trace. -/
theorem invoke_true_ok (mods : List String) (ver : String) (cy : CyFun)
    (superF superR : Phase) (st : BuildState) (exts : ExtList)
    (hflag : st.should_cythonize = true)
    (hcy : cy (filesOf mods) 3 EXCLUDE_ARG = Except.ok exts)
    (hsf : (superF st.rest).2 = none)
    (hsr : (superR (superF st.rest).1).2 = none) :
    invoke mods ver none cy superF superR st =
      ({ st with
          dist := { cmdclass := snapVal st.nextOid st.dist.cmdclass
                    ext_modules := snapVal (st.nextOid + 1) st.dist.ext_modules }
          stored_options := some
            { cmdclass := snapVal st.nextOid st.dist.cmdclass
              ext_modules := snapVal (st.nextOid + 1) st.dist.ext_modules }
          nextOid := st.nextOid + 3
          rest := (superR (superF st.rest).1).1
          log := st.log ++ [announceMsg (filesOf mods).length ver]
          trace := st.trace ++ [Ev.snapshot, Ev.announce, Ev.mutate,
                                Ev.superFinalize, Ev.superRun, Ev.restore] }, none) := by
  rcases hF : superF st.rest with ⟨r1, f1⟩
  have hf1 : f1 = none := by rw [hF] at hsf; exact hsf
  subst hf1
  have hsr1 : (superR r1).2 = none := by rw [hF] at hsr; exact hsr
  rcases hR : superR r1 with ⟨r2, f2⟩
  have hf2 : f2 = none := by rw [hR] at hsr1; exact hsr1
  subst hf2
  simp [invoke, finalize_options, run, hflag, hcy, hF, hR, List.append_assoc]

end build_cythonized

/-! ## Concrete fixtures used by counterexamples and witnesses -/

/-- A distribution as `setup()` builds it: a non-empty `cmdclass` (object id 0)
and a non-empty `ext_modules` (object id 1). -/
def demoDist : PyDistribution :=
  { cmdclass := some ⟨0, [("build", "build_cythonized")]⟩
    ext_modules := some ⟨1, ["orig_ext"]⟩ }

/-- A freshly constructed step with the flag on, over `demoDist`. -/
def demoState : BuildState :=
  { dist := demoDist, stored_options := none, should_cythonize := true,
    nextOid := 2, rest := 0, log := [], trace := [] }

/-- The same step with the flag off. -/
def demoStateOff : BuildState :=
  { demoState with should_cythonize := false }

/-- A distribution whose two fields are present but empty collections. -/
def emptyDist : PyDistribution :=
  { cmdclass := some ⟨0, []⟩, ext_modules := some ⟨1, []⟩ }

/-- A flag-on step over `emptyDist`. -/
def emptyState : BuildState :=
  { demoState with dist := emptyDist }

/-- A compiler collaborator that succeeds with one descriptor. -/
def cyDemo : CyFun := fun _ _ _ => Except.ok ["compiled_ext"]

/-- A compiler collaborator that echoes the file list it was handed back as
the descriptor list, exposing what the step passed it. -/
def cyEcho : CyFun := fun files _ _ => Except.ok files

/-- A compiler collaborator that raises a configuration error (the
single-module selector did not resolve to an existing file). -/
def cyFailDemo : CyFun := fun _ _ _ => Except.error ⟨"CompileError: pkgX/nomod.py"⟩

/-- An inherited phase that returns normally. -/
def phaseOk : Phase := fun r => (r, none)

/-- An inherited phase that raises. -/
def phaseRaise : Phase := fun r => (r, some ⟨"LinkError"⟩)

/-! ## Claim theorems -/

/-- C6: the feature flag is resolved once at step construction by comparing the
`CYTHONIZE_NLTK` environment value for exact string equality against the
literal `"true"` (and the module-level `setup_reqs` check uses the same exact
comparison); every other value — unset, `"True"`, `"1"`, `"yes"` — yields a
false flag. -/
theorem flag_exact_string_equality (env : Option String) (d : PyDistribution) (n r : Nat) :
    ((build_cythonized.construct env d n r).should_cythonize = true ↔ env = some "true")
    ∧ (setup_reqs env = ["Cython >= 0.28.5"] ↔ env = some "true")
    ∧ (build_cythonized.construct (some "True") d n r).should_cythonize = false
    ∧ (build_cythonized.construct (some "1") d n r).should_cythonize = false
    ∧ (build_cythonized.construct (some "yes") d n r).should_cythonize = false
    ∧ (build_cythonized.construct none d n r).should_cythonize = false := by
  refine ⟨by simp [build_cythonized.construct], ?_, rfl, rfl, rfl, rfl⟩
  by_cases h : env = some "true" <;> simp [setup_reqs, h]

/-- C7: with the feature flag false, the invocation takes no snapshot and
never mutates the build description: the distribution's two fields, the
stored-options dict and the log are untouched, and the only events that run
are the delegations to the inherited configuration and execution. -/
theorem flag_off_invariance (mods : List String) (ver : String) (importErr : Option Err)
    (cy : CyFun) (superF superR : Phase) (st : BuildState)
    (h : st.should_cythonize = false) :
    (build_cythonized.invoke mods ver importErr cy superF superR st).1.dist = st.dist
    ∧ (build_cythonized.invoke mods ver importErr cy superF superR st).1.stored_options
        = st.stored_options
    ∧ (build_cythonized.invoke mods ver importErr cy superF superR st).1.log = st.log
    ∧ ((build_cythonized.invoke mods ver importErr cy superF superR st).1.trace
         = st.trace ++ [Ev.superFinalize]
       ∨ (build_cythonized.invoke mods ver importErr cy superF superR st).1.trace
         = st.trace ++ [Ev.superFinalize, Ev.superRun]) := by
  rcases hF : superF st.rest with ⟨r1, f1⟩
  cases f1 with
  | some e =>
    simp [build_cythonized.invoke, build_cythonized.finalize_options, h, hF]
  | none =>
    rcases hR : superR r1 with ⟨r2, f2⟩
    cases f2 with
    | some e =>
      simp [build_cythonized.invoke, build_cythonized.finalize_options,
            build_cythonized.run, h, hF, hR, List.append_assoc]
    | none =>
      simp [build_cythonized.invoke, build_cythonized.finalize_options,
            build_cythonized.run, h, hF, hR, List.append_assoc]

/-- Witness for C7 at a concrete flag-off state. -/
theorem flag_off_invariance_witness :
    (build_cythonized.invoke ["a.b"] "0.29" none cyDemo phaseOk phaseOk demoStateOff).1.dist
        = demoStateOff.dist
    ∧ (build_cythonized.invoke ["a.b"] "0.29" none cyDemo phaseOk phaseOk demoStateOff).1.stored_options
        = demoStateOff.stored_options
    ∧ (build_cythonized.invoke ["a.b"] "0.29" none cyDemo phaseOk phaseOk demoStateOff).1.log
        = demoStateOff.log
    ∧ ((build_cythonized.invoke ["a.b"] "0.29" none cyDemo phaseOk phaseOk demoStateOff).1.trace
         = demoStateOff.trace ++ [Ev.superFinalize]
       ∨ (build_cythonized.invoke ["a.b"] "0.29" none cyDemo phaseOk phaseOk demoStateOff).1.trace
         = demoStateOff.trace ++ [Ev.superFinalize, Ev.superRun]) :=
  flag_off_invariance ["a.b"] "0.29" none cyDemo phaseOk phaseOk demoStateOff rfl

/-- C10: with the feature flag true, if the compiler collaborator raises during
the configuration phase — either at `import Cython` or inside the `cythonize`
call — then the replacement of `ext_modules` has not yet happened: the
invocation propagates the error and the distribution is exactly as before. -/
theorem config_error_leaves_description_unmutated (mods : List String) (ver : String)
    (importErr : Option Err) (cy : CyFun) (superF superR : Phase) (st : BuildState)
    (e : Err) (hflag : st.should_cythonize = true)
    (herr : importErr = some e
            ∨ (importErr = none ∧ cy (filesOf mods) 3 EXCLUDE_ARG = Except.error e)) :
    (build_cythonized.invoke mods ver importErr cy superF superR st).1.dist = st.dist
    ∧ (build_cythonized.invoke mods ver importErr cy superF superR st).2 = some e := by
  rcases herr with he | ⟨hi, hcy⟩
  · subst he
    simp [build_cythonized.invoke, build_cythonized.finalize_options, hflag]
  · subst hi
    simp [build_cythonized.invoke, build_cythonized.finalize_options, hflag, hcy]

/-- Witness for C10: a concrete `cythonize` failure leaves `demoState`'s
distribution unmutated and surfaces the error. -/
theorem config_error_leaves_description_unmutated_witness :
    (build_cythonized.invoke ["a.b"] "0.29" none cyFailDemo phaseOk phaseOk demoState).1.dist
        = demoState.dist
    ∧ (build_cythonized.invoke ["a.b"] "0.29" none cyFailDemo phaseOk phaseOk demoState).2
        = some ⟨"CompileError: pkgX/nomod.py"⟩ :=
  config_error_leaves_description_unmutated ["a.b"] "0.29" none cyFailDemo phaseOk phaseOk
    demoState ⟨"CompileError: pkgX/nomod.py"⟩ rfl (Or.inr ⟨rfl, rfl⟩)

/-- A non-empty present collection snapshots to a value-preserving copy with
the given fresh identity. -/
theorem snapVal_some_of_ne_nil {β : Type} (fresh : Nat) (p : PyObj (List β))
    (h : p.val ≠ []) : snapVal fresh (some p) = some ⟨fresh, p.val⟩ := by
  have hemp : p.val.isEmpty = false := by
    cases hv : p.val with
    | nil => exact absurd hv h
    | cons a l => rfl
  simp [snapVal, hemp]

/-- A missing or present-but-empty collection snapshots to `none`. -/
theorem snapVal_none_of_empty {β : Type} (fresh : Nat) (o : Option (PyObj (List β)))
    (h : o.map PyObj.val = none ∨ o.map PyObj.val = some []) :
    snapVal fresh o = none := by
  cases o with
  | none => rfl
  | some p =>
    have hv : p.val = [] := by
      rcases h with h | h
      · exact absurd h (by simp)
      · simpa using h
    simp [snapVal, hv]

/-- C1 counterexample: with the flag true, when the inherited execution phase
raises, the restoration write-back does not run (there is no `try`/`finally`
around `super().run()`): `ext_modules` keeps the compiled descriptors instead
of returning to its pre-`Configuring` value, so the claim's "whether it
returns normally or raises" fails on the raising path. -/
theorem restoration_skipped_on_raise_cex :
    (build_cythonized.invoke ["a.b"] "0.29" none cyDemo phaseOk phaseRaise demoState).1.dist.ext_modules.map PyObj.val
        = some ["compiled_ext"]
    ∧ demoState.dist.ext_modules.map PyObj.val = some ["orig_ext"]
    ∧ (build_cythonized.invoke ["a.b"] "0.29" none cyDemo phaseOk phaseRaise demoState).2
        = some ⟨"LinkError"⟩
    ∧ (some ["compiled_ext"] : Option ExtList) ≠ some ["orig_ext"] := by
  decide

/-- C1 (amended): with the flag true, when the inherited execution phase
returns normally (and the configuration phase succeeded), the restoration
write-back runs and the command-override table and extension-target list are
identical by value to their state immediately before `Configuring` began —
provided each of the two fields was absent or non-empty before (a
present-but-empty collection is snapshotted as `None`, so it is restored as
`None`, not as an empty collection).  When the inherited execution raises, the
write-back is skipped. -/
theorem flag_on_restoration_on_normal_return (mods : List String) (ver : String)
    (cy : CyFun) (superF superR : Phase) (st : BuildState) (exts : ExtList)
    (hflag : st.should_cythonize = true)
    (hcy : cy (filesOf mods) 3 EXCLUDE_ARG = Except.ok exts)
    (hsf : (superF st.rest).2 = none)
    (hsr : (superR (superF st.rest).1).2 = none)
    (hc : st.dist.cmdclass.map PyObj.val ≠ some ([] : Cmdclass))
    (he : st.dist.ext_modules.map PyObj.val ≠ some ([] : ExtList)) :
    (build_cythonized.invoke mods ver none cy superF superR st).1.dist.cmdclass.map PyObj.val
        = st.dist.cmdclass.map PyObj.val
    ∧ (build_cythonized.invoke mods ver none cy superF superR st).1.dist.ext_modules.map PyObj.val
        = st.dist.ext_modules.map PyObj.val
    ∧ (build_cythonized.invoke mods ver none cy superF superR st).2 = none := by
  rw [build_cythonized.invoke_true_ok mods ver cy superF superR st exts hflag hcy hsf hsr]
  exact ⟨snapVal_map_val _ _ hc, snapVal_map_val _ _ he, rfl⟩

/-- Witness for the amended C1 at a concrete flag-on state. -/
theorem flag_on_restoration_on_normal_return_witness :
    (build_cythonized.invoke ["a.b"] "0.29" none cyDemo phaseOk phaseOk demoState).1.dist.cmdclass.map PyObj.val
        = demoState.dist.cmdclass.map PyObj.val
    ∧ (build_cythonized.invoke ["a.b"] "0.29" none cyDemo phaseOk phaseOk demoState).1.dist.ext_modules.map PyObj.val
        = demoState.dist.ext_modules.map PyObj.val
    ∧ (build_cythonized.invoke ["a.b"] "0.29" none cyDemo phaseOk phaseOk demoState).2 = none :=
  flag_on_restoration_on_normal_return ["a.b"] "0.29" cyDemo phaseOk phaseOk demoState
    ["compiled_ext"] rfl rfl rfl rfl (by decide) (by decide)

/-- C2 counterexample: after a complete flag-on invocation over `demoState`,
the restored `cmdclass` is a fresh object (identity 2) with the same value as
the pre-mutation object (identity 0): it is a copy, not the very same object,
so reference equality fails. -/
theorem restoration_not_reference_equal_cex :
    (build_cythonized.invoke ["a.b"] "0.29" none cyDemo phaseOk phaseOk demoState).1.dist.cmdclass
        = some ⟨2, [("build", "build_cythonized")]⟩
    ∧ demoState.dist.cmdclass = some ⟨0, [("build", "build_cythonized")]⟩
    ∧ (2 : Nat) ≠ 0 := by
  decide

/-- C2 (amended): for a complete flag-on invocation with non-empty pre-mutation
fields, the restored `cmdclass` and `ext_modules` are shallow copies of the
pre-mutation values: equal by value but carried by fresh objects, so they are
not reference-equal to the originals. -/
theorem restoration_is_fresh_shallow_copy (mods : List String) (ver : String)
    (cy : CyFun) (superF superR : Phase) (st : BuildState) (exts : ExtList)
    (p : PyObj Cmdclass) (q : PyObj ExtList)
    (hflag : st.should_cythonize = true)
    (hcy : cy (filesOf mods) 3 EXCLUDE_ARG = Except.ok exts)
    (hsf : (superF st.rest).2 = none)
    (hsr : (superR (superF st.rest).1).2 = none)
    (hcv : st.dist.cmdclass = some p) (hpv : p.val ≠ [])
    (hev : st.dist.ext_modules = some q) (hqv : q.val ≠ [])
    (hfp : p.oid < st.nextOid) (hfq : q.oid < st.nextOid) :
    ((build_cythonized.invoke mods ver none cy superF superR st).1.dist.cmdclass
        = some ⟨st.nextOid, p.val⟩ ∧ st.nextOid ≠ p.oid)
    ∧ ((build_cythonized.invoke mods ver none cy superF superR st).1.dist.ext_modules
        = some ⟨st.nextOid + 1, q.val⟩ ∧ st.nextOid + 1 ≠ q.oid) := by
  rw [build_cythonized.invoke_true_ok mods ver cy superF superR st exts hflag hcy hsf hsr]
  refine ⟨⟨?_, ne_of_gt hfp⟩, ⟨?_, ne_of_gt (Nat.lt_succ_of_lt hfq)⟩⟩
  · show snapVal st.nextOid st.dist.cmdclass = some ⟨st.nextOid, p.val⟩
    rw [hcv]
    exact snapVal_some_of_ne_nil _ _ hpv
  · show snapVal (st.nextOid + 1) st.dist.ext_modules = some ⟨st.nextOid + 1, q.val⟩
    rw [hev]
    exact snapVal_some_of_ne_nil _ _ hqv

/-- Witness for the amended C2 at a concrete flag-on state. -/
theorem restoration_is_fresh_shallow_copy_witness :
    ((build_cythonized.invoke ["a.b"] "0.29" none cyDemo phaseOk phaseOk demoState).1.dist.cmdclass
        = some ⟨demoState.nextOid, [("build", "build_cythonized")]⟩ ∧ demoState.nextOid ≠ 0)
    ∧ ((build_cythonized.invoke ["a.b"] "0.29" none cyDemo phaseOk phaseOk demoState).1.dist.ext_modules
        = some ⟨demoState.nextOid + 1, ["orig_ext"]⟩ ∧ demoState.nextOid + 1 ≠ 1) :=
  restoration_is_fresh_shallow_copy ["a.b"] "0.29" cyDemo phaseOk phaseOk demoState
    ["compiled_ext"] ⟨0, [("build", "build_cythonized")]⟩ ⟨1, ["orig_ext"]⟩
    rfl rfl rfl rfl rfl (by decide) rfl (by decide) (by decide) (by decide)

/-- C3 counterexample: over a distribution whose `cmdclass` and `ext_modules`
are present but empty, the snapshot taken during configuration records `None`
(the absence marker) for both fields, not empty collections. -/
theorem snapshot_records_absence_cex :
    (build_cythonized.finalize_options ["a.b"] "0.29" none cyDemo phaseOk emptyState).1.stored_options
        = some { cmdclass := none, ext_modules := none }
    ∧ (some { cmdclass := none, ext_modules := none } : Option Stored)
        ≠ some { cmdclass := some ⟨2, ([] : Cmdclass)⟩
                 ext_modules := some ⟨3, ([] : ExtList)⟩ } := by
  decide

/-- C3 (amended): with the flag true the snapshot is always taken during the
configuration phase, and it records a missing or empty collection as `None`
(the absence marker) while a non-empty collection is recorded as a
value-preserving copy; snapshot and restoration are therefore symmetric only
up to the collapse of empty collections to `None`. -/
theorem snapshot_empty_as_absence (mods : List String) (ver : String)
    (importErr : Option Err) (cy : CyFun) (superF : Phase) (st : BuildState)
    (hflag : st.should_cythonize = true) :
    ∃ s : Stored,
      (build_cythonized.finalize_options mods ver importErr cy superF st).1.stored_options = some s
      ∧ ((st.dist.cmdclass.map PyObj.val = none ∨ st.dist.cmdclass.map PyObj.val = some []) →
          s.cmdclass = none)
      ∧ ((st.dist.ext_modules.map PyObj.val = none ∨ st.dist.ext_modules.map PyObj.val = some []) →
          s.ext_modules = none)
      ∧ (∀ p : PyObj Cmdclass, st.dist.cmdclass = some p → p.val ≠ [] →
          s.cmdclass = some ⟨st.nextOid, p.val⟩)
      ∧ (∀ q : PyObj ExtList, st.dist.ext_modules = some q → q.val ≠ [] →
          s.ext_modules = some ⟨st.nextOid + 1, q.val⟩) := by
  have hs : (build_cythonized.finalize_options mods ver importErr cy superF st).1.stored_options
      = some { cmdclass := snapVal st.nextOid st.dist.cmdclass
               ext_modules := snapVal (st.nextOid + 1) st.dist.ext_modules } := by
    cases importErr with
    | some e => simp [build_cythonized.finalize_options, hflag]
    | none =>
      cases hcy : cy (filesOf mods) 3 EXCLUDE_ARG with
      | error e => simp [build_cythonized.finalize_options, hflag, hcy]
      | ok exts =>
        rcases hF : superF st.rest with ⟨r1, f1⟩
        simp [build_cythonized.finalize_options, hflag, hcy, hF]
  refine ⟨_, hs, ?_, ?_, ?_, ?_⟩
  · exact fun h => snapVal_none_of_empty _ _ h
  · exact fun h => snapVal_none_of_empty _ _ h
  · intro p hp hpv
    show snapVal st.nextOid st.dist.cmdclass = some ⟨st.nextOid, p.val⟩
    rw [hp]
    exact snapVal_some_of_ne_nil _ _ hpv
  · intro q hq hqv
    show snapVal (st.nextOid + 1) st.dist.ext_modules = some ⟨st.nextOid + 1, q.val⟩
    rw [hq]
    exact snapVal_some_of_ne_nil _ _ hqv

/-- Witness for the amended C3 over the empty-collection distribution. -/
theorem snapshot_empty_as_absence_witness :
    ∃ s : Stored,
      (build_cythonized.finalize_options ["a.b"] "0.29" none cyDemo phaseOk emptyState).1.stored_options = some s
      ∧ ((emptyState.dist.cmdclass.map PyObj.val = none ∨ emptyState.dist.cmdclass.map PyObj.val = some []) →
          s.cmdclass = none)
      ∧ ((emptyState.dist.ext_modules.map PyObj.val = none ∨ emptyState.dist.ext_modules.map PyObj.val = some []) →
          s.ext_modules = none)
      ∧ (∀ p : PyObj Cmdclass, emptyState.dist.cmdclass = some p → p.val ≠ [] →
          s.cmdclass = some ⟨emptyState.nextOid, p.val⟩)
      ∧ (∀ q : PyObj ExtList, emptyState.dist.ext_modules = some q → q.val ≠ [] →
          s.ext_modules = some ⟨emptyState.nextOid + 1, q.val⟩) :=
  snapshot_empty_as_absence ["a.b"] "0.29" none cyDemo phaseOk emptyState rfl

/-- C4 counterexample: for the selector list `["pkgA.mod1", "pkgB.*"]` the
step hands the compiler collaborator the glob pattern `pkgB/*.py` unexpanded
(observed here with a collaborator that echoes its input back as the
descriptor list), not the expanded per-module list the claim expects. -/
theorem wildcard_passed_unexpanded_cex :
    (build_cythonized.finalize_options ["pkgA.mod1", "pkgB.*"] "0.29" none cyEcho phaseOk demoState).1.dist.ext_modules.map PyObj.val
        = some ["pkgA/mod1.py", "pkgB/*.py"]
    ∧ (some ["pkgA/mod1.py", "pkgB/*.py"] : Option (List String))
        ≠ some ["pkgA/mod1.py", "pkgB/mod2.py"] := by
  decide

/-- C4 (amended): selector resolution only rewrites each entry into a file
glob (dots become path separators, `.py` is appended); wildcard expansion and
the exclusion of package-initializer files are delegated to the compiler
collaborator, which is invoked with the unexpanded pattern list and the
exclusion argument `["**/__init__.py"]`, and the progress message reports the
number of selector entries (2 for this list). -/
theorem selector_glob_resolution (ver : String) (cy : CyFun) (superF : Phase)
    (st : BuildState) (exts : ExtList)
    (hflag : st.should_cythonize = true)
    (hcy : cy ["pkgA/mod1.py", "pkgB/*.py"] 3 ["**/__init__.py"] = Except.ok exts) :
    filesOf ["pkgA.mod1", "pkgB.*"] = ["pkgA/mod1.py", "pkgB/*.py"]
    ∧ (build_cythonized.finalize_options ["pkgA.mod1", "pkgB.*"] ver none cy superF st).1.dist.ext_modules.map PyObj.val
        = some exts
    ∧ (build_cythonized.finalize_options ["pkgA.mod1", "pkgB.*"] ver none cy superF st).1.log
        = st.log ++ [announceMsg 2 ver] := by
  have hfl : filesOf ["pkgA.mod1", "pkgB.*"] = ["pkgA/mod1.py", "pkgB/*.py"] := by decide
  refine ⟨hfl, ?_, ?_⟩ <;>
  · rcases hF : superF st.rest with ⟨r1, f1⟩
    simp [build_cythonized.finalize_options, hflag, hF, hfl, EXCLUDE_ARG, hcy]

/-- Witness for the amended C4 with the echoing collaborator. -/
theorem selector_glob_resolution_witness :
    filesOf ["pkgA.mod1", "pkgB.*"] = ["pkgA/mod1.py", "pkgB/*.py"]
    ∧ (build_cythonized.finalize_options ["pkgA.mod1", "pkgB.*"] "0.29" none cyEcho phaseOk demoState).1.dist.ext_modules.map PyObj.val
        = some ["pkgA/mod1.py", "pkgB/*.py"]
    ∧ (build_cythonized.finalize_options ["pkgA.mod1", "pkgB.*"] "0.29" none cyEcho phaseOk demoState).1.log
        = demoState.log ++ [announceMsg 2 "0.29"] :=
  selector_glob_resolution "0.29" cyEcho phaseOk demoState ["pkgA/mod1.py", "pkgB/*.py"] rfl rfl

/-- C5 counterexample: when the `cythonize` call raises a configuration error
for a nonexistent single module, the error is propagated unmodified — but the
informational progress message has already been emitted, because the announce
on line 107 precedes the `cythonize` call on line 108. -/
theorem message_emitted_before_error_cex :
    (build_cythonized.invoke ["pkgX.nomod"] "0.29" none cyFailDemo phaseOk phaseOk demoState).2
        = some ⟨"CompileError: pkgX/nomod.py"⟩
    ∧ (build_cythonized.invoke ["pkgX.nomod"] "0.29" none cyFailDemo phaseOk phaseOk demoState).1.log
        = ["Compiling 1 modules using Cython 0.29"]
    ∧ (["Compiling 1 modules using Cython 0.29"] : List String) ≠ [] := by
  decide

/-- C5 (amended): with the flag true, a configuration error raised by the
compiler collaborator terminates the invocation with that error propagated
unmodified, but the informational progress message has already been emitted
(the announce precedes the collaborator call). -/
theorem config_error_propagated_after_announce (mods : List String) (ver : String)
    (cy : CyFun) (superF superR : Phase) (st : BuildState) (e : Err)
    (hflag : st.should_cythonize = true)
    (hcy : cy (filesOf mods) 3 EXCLUDE_ARG = Except.error e) :
    (build_cythonized.invoke mods ver none cy superF superR st).2 = some e
    ∧ (build_cythonized.invoke mods ver none cy superF superR st).1.log
        = st.log ++ [announceMsg (filesOf mods).length ver] := by
  simp [build_cythonized.invoke, build_cythonized.finalize_options, hflag, hcy]

/-- Witness for the amended C5 with a concrete failing collaborator. -/
theorem config_error_propagated_after_announce_witness :
    (build_cythonized.invoke ["pkgX.nomod"] "0.29" none cyFailDemo phaseOk phaseOk demoState).2
        = some ⟨"CompileError: pkgX/nomod.py"⟩
    ∧ (build_cythonized.invoke ["pkgX.nomod"] "0.29" none cyFailDemo phaseOk phaseOk demoState).1.log
        = demoState.log ++ [announceMsg (filesOf ["pkgX.nomod"]).length "0.29"] :=
  config_error_propagated_after_announce ["pkgX.nomod"] "0.29" cyFailDemo phaseOk phaseOk
    demoState ⟨"CompileError: pkgX/nomod.py"⟩ rfl rfl

/-- C8: running the complete flag-on configure-execute-restore sequence twice
in succession leaves the distribution's two fields in the same state, by
value, as running it once — restoration precedes the second invocation's
mutation, and a snapshot of a snapshot has the same shallow value. -/
theorem idempotent_toggle (mods : List String) (ver : String) (cy1 cy2 : CyFun)
    (superF superR : Phase) (st : BuildState) (exts1 exts2 : ExtList)
    (hflag : st.should_cythonize = true)
    (hcy1 : cy1 (filesOf mods) 3 EXCLUDE_ARG = Except.ok exts1)
    (hcy2 : cy2 (filesOf mods) 3 EXCLUDE_ARG = Except.ok exts2)
    (hsf : ∀ r, (superF r).2 = none) (hsr : ∀ r, (superR r).2 = none) :
    (build_cythonized.invoke mods ver none cy2 superF superR
        (build_cythonized.invoke mods ver none cy1 superF superR st).1).1.dist.cmdclass.map PyObj.val
      = (build_cythonized.invoke mods ver none cy1 superF superR st).1.dist.cmdclass.map PyObj.val
    ∧ (build_cythonized.invoke mods ver none cy2 superF superR
        (build_cythonized.invoke mods ver none cy1 superF superR st).1).1.dist.ext_modules.map PyObj.val
      = (build_cythonized.invoke mods ver none cy1 superF superR st).1.dist.ext_modules.map PyObj.val := by
  have h1 := build_cythonized.invoke_true_ok mods ver cy1 superF superR st exts1
    hflag hcy1 (hsf _) (hsr _)
  have hd1c : (build_cythonized.invoke mods ver none cy1 superF superR st).1.dist.cmdclass
      = snapVal st.nextOid st.dist.cmdclass := by rw [h1]
  have hd1e : (build_cythonized.invoke mods ver none cy1 superF superR st).1.dist.ext_modules
      = snapVal (st.nextOid + 1) st.dist.ext_modules := by rw [h1]
  have hf1 : (build_cythonized.invoke mods ver none cy1 superF superR st).1.should_cythonize = true := by
    rw [h1]; exact hflag
  have h2 := build_cythonized.invoke_true_ok mods ver cy2 superF superR
    (build_cythonized.invoke mods ver none cy1 superF superR st).1 exts2
    hf1 hcy2 (hsf _) (hsr _)
  have hd2c : (build_cythonized.invoke mods ver none cy2 superF superR
      (build_cythonized.invoke mods ver none cy1 superF superR st).1).1.dist.cmdclass
      = snapVal (build_cythonized.invoke mods ver none cy1 superF superR st).1.nextOid
          (build_cythonized.invoke mods ver none cy1 superF superR st).1.dist.cmdclass := by
    rw [h2]
  have hd2e : (build_cythonized.invoke mods ver none cy2 superF superR
      (build_cythonized.invoke mods ver none cy1 superF superR st).1).1.dist.ext_modules
      = snapVal ((build_cythonized.invoke mods ver none cy1 superF superR st).1.nextOid + 1)
          (build_cythonized.invoke mods ver none cy1 superF superR st).1.dist.ext_modules := by
    rw [h2]
  constructor
  · rw [hd2c, hd1c]
    exact snapVal_snapVal_map_val _ _ _
  · rw [hd2e, hd1e]
    exact snapVal_snapVal_map_val _ _ _

/-- Witness for C8 at a concrete flag-on state run twice. -/
theorem idempotent_toggle_witness :
    (build_cythonized.invoke ["a.b"] "0.29" none cyDemo phaseOk phaseOk
        (build_cythonized.invoke ["a.b"] "0.29" none cyDemo phaseOk phaseOk demoState).1).1.dist.cmdclass.map PyObj.val
      = (build_cythonized.invoke ["a.b"] "0.29" none cyDemo phaseOk phaseOk demoState).1.dist.cmdclass.map PyObj.val
    ∧ (build_cythonized.invoke ["a.b"] "0.29" none cyDemo phaseOk phaseOk
        (build_cythonized.invoke ["a.b"] "0.29" none cyDemo phaseOk phaseOk demoState).1).1.dist.ext_modules.map PyObj.val
      = (build_cythonized.invoke ["a.b"] "0.29" none cyDemo phaseOk phaseOk demoState).1.dist.ext_modules.map PyObj.val :=
  idempotent_toggle ["a.b"] "0.29" cyDemo cyDemo phaseOk phaseOk demoState
    ["compiled_ext"] ["compiled_ext"] rfl rfl rfl (fun _ => rfl) (fun _ => rfl)

/-- C9 counterexample: when the inherited execution raises, the restoration
write-back runs zero times, not once — the raising path of `Executing` exempts
restoration in the code, contrary to the claim's source sentence. -/
theorem restore_count_zero_on_raise_cex :
    (build_cythonized.invoke ["a.b"] "0.29" none cyDemo phaseOk phaseRaise demoState).1.trace.count Ev.restore = 0
    ∧ (build_cythonized.invoke ["a.b"] "0.29" none cyDemo phaseOk phaseRaise demoState).2
        = some ⟨"LinkError"⟩
    ∧ (0 : Nat) ≠ 1 := by
  decide

/-- C9 (amended): with the flag true, on an invocation whose configuration
succeeds and whose inherited execution returns normally, the event order is
exactly snapshot, announce, mutate, inherited configuration, inherited
execution, restore: the description is never mutated before the snapshot is
taken, and the restoration write-back runs exactly once, after the inherited
execution returns (when the inherited execution raises it does not run at
all). -/
theorem snapshot_before_mutation_restore_once (mods : List String) (ver : String)
    (cy : CyFun) (superF superR : Phase) (st : BuildState) (exts : ExtList)
    (hflag : st.should_cythonize = true)
    (hcy : cy (filesOf mods) 3 EXCLUDE_ARG = Except.ok exts)
    (hsf : (superF st.rest).2 = none)
    (hsr : (superR (superF st.rest).1).2 = none)
    (htr : st.trace = []) :
    (build_cythonized.invoke mods ver none cy superF superR st).1.trace
      = [Ev.snapshot, Ev.announce, Ev.mutate, Ev.superFinalize, Ev.superRun, Ev.restore]
    ∧ (build_cythonized.invoke mods ver none cy superF superR st).1.trace.indexOf Ev.snapshot
        < (build_cythonized.invoke mods ver none cy superF superR st).1.trace.indexOf Ev.mutate
    ∧ (build_cythonized.invoke mods ver none cy superF superR st).1.trace.count Ev.restore = 1
    ∧ (build_cythonized.invoke mods ver none cy superF superR st).1.trace.indexOf Ev.superRun
        < (build_cythonized.invoke mods ver none cy superF superR st).1.trace.indexOf Ev.restore := by
  have h := build_cythonized.invoke_true_ok mods ver cy superF superR st exts hflag hcy hsf hsr
  have ht : (build_cythonized.invoke mods ver none cy superF superR st).1.trace
      = [Ev.snapshot, Ev.announce, Ev.mutate, Ev.superFinalize, Ev.superRun, Ev.restore] := by
    rw [h]
    show st.trace ++ [Ev.snapshot, Ev.announce, Ev.mutate,
                      Ev.superFinalize, Ev.superRun, Ev.restore] = _
    rw [htr]
    rfl
  refine ⟨ht, ?_, ?_, ?_⟩ <;> rw [ht] <;> decide

/-- Witness for the amended C9 at a concrete flag-on state. -/
theorem snapshot_before_mutation_restore_once_witness :
    (build_cythonized.invoke ["a.b"] "0.29" none cyDemo phaseOk phaseOk demoState).1.trace
      = [Ev.snapshot, Ev.announce, Ev.mutate, Ev.superFinalize, Ev.superRun, Ev.restore]
    ∧ (build_cythonized.invoke ["a.b"] "0.29" none cyDemo phaseOk phaseOk demoState).1.trace.indexOf Ev.snapshot
        < (build_cythonized.invoke ["a.b"] "0.29" none cyDemo phaseOk phaseOk demoState).1.trace.indexOf Ev.mutate
    ∧ (build_cythonized.invoke ["a.b"] "0.29" none cyDemo phaseOk phaseOk demoState).1.trace.count Ev.restore = 1
    ∧ (build_cythonized.invoke ["a.b"] "0.29" none cyDemo phaseOk phaseOk demoState).1.trace.indexOf Ev.superRun
        < (build_cythonized.invoke ["a.b"] "0.29" none cyDemo phaseOk phaseOk demoState).1.trace.indexOf Ev.restore :=
  snapshot_before_mutation_restore_once ["a.b"] "0.29" cyDemo phaseOk phaseOk demoState
    ["compiled_ext"] rfl rfl rfl rfl rfl
